import Mathlib

/-!
# Shallow embedding of the `imterm` immediate-mode terminal UI engine

This file embeds the state and operations of `imterm.go` (package `imterm`)
into Lean and proves properties of the embedding.

Modelling conventions:
* Go `int` is modelled as `Int`; `Attribute` (a `uint16` used only as a small
  bit field) and `MouseButton`/`Key` as `Nat` constants.
* Go strings that are edited by index (the `Input` text buffer) are modelled
  as `List Char`; Go's byte indices coincide with character indices on the
  ASCII data these developments use.  A Go slice expression `s[a:b]` is
  modelled by a partial function returning `none` exactly when Go would panic
  with "slice bounds out of range".
* Go maps (`baseStyle`, `widgetState`) are modelled as association lists with
  first-match lookup and in-place update.
* Screen output (`SetCell`, `Clear`, `Flip`) is an external effect and is
  dropped; every state mutation performed by a widget procedure is kept.
  For `Gauge`, whose observable behaviour under scrutiny is *which style each
  interior column is drawn with*, the per-column style choice is returned as
  a list (the code writes every interior cell of column `cx` with the style
  held in its variable `s` at that iteration).
* The `percent float32` parameter of `Gauge` is modelled as `ℚ`.  For the
  concrete comparisons evaluated in this file the operands are at distance
  at least 1/22 from the threshold, far above float32 rounding error, so the
  rational and float32 comparisons agree.
-/

/-! ## Attributes, keys, mouse buttons (imterm.go lines 9–126) -/

def ColorDefault : Nat := 0
def ColorBlack : Nat := 1
def ColorRed : Nat := 2
def ColorGreen : Nat := 3
def ColorYellow : Nat := 4
def ColorBlue : Nat := 5
def ColorMagenta : Nat := 6
def ColorCyan : Nat := 7
def ColorWhite : Nat := 8

def AttrBold : Nat := 512
def AttrUnderline : Nat := 1024
def AttrReverse : Nat := 2048

def MouseNone : Nat := 0
def MouseLeft : Nat := 1
def MouseRight : Nat := 2
def MouseMiddle : Nat := 3
def MouseWheelUp : Nat := 4
def MouseWheelDown : Nat := 5
def MouseRelease : Nat := 6

def KeyBackspace : Nat := 0x08
def KeyEnter : Nat := 0x0D
def KeySpace : Nat := 0x20
def KeyBackspace2 : Nat := 0x7F
def KeyInsert : Nat := 0xFFFF - 12
def KeyDelete : Nat := 0xFFFF - 13
def KeyArrowLeft : Nat := 0xFFFF - 20
def KeyArrowRight : Nat := 0xFFFF - 21

/-- Go's zero `rune`, used by the engine as "no character pressed". -/
def charZero : Char := Char.ofNat 0

/-! ## Style and style merging (lines 135–159) -/

/-- `Style` from imterm.go: four attribute fields, `0` meaning unset. -/
structure Style where
  FgColor : Nat := 0
  BgColor : Nat := 0
  FgStyle : Nat := 0
  BgStyle : Nat := 0
deriving DecidableEq

/-- `(s1 Style) Merge(s2 Style)`: each field of `s1` that is `0` is taken
from `s2`, otherwise kept (lines 140–154). -/
def Style.Merge (s1 s2 : Style) : Style :=
  { FgColor := if s1.FgColor = 0 then s2.FgColor else s1.FgColor,
    FgStyle := if s1.FgStyle = 0 then s2.FgStyle else s1.FgStyle,
    BgColor := if s1.BgColor = 0 then s2.BgColor else s1.BgColor,
    BgStyle := if s1.BgStyle = 0 then s2.BgStyle else s1.BgStyle }

/-- `StyleAttr` from imterm.go (lines 156–159). -/
structure StyleAttr where
  Name : String
  Value : Style
deriving DecidableEq

/-- The `baseStyle map[string]Style`, as an association list. -/
abbrev StyleTable := List (String × Style)

/-- Map lookup on the base-style table. -/
def lookupStyle : StyleTable → String → Option Style
  | [], _ => none
  | (k, v) :: rest, n => if k = n then some v else lookupStyle rest n

/-- `strings.SplitAfter(s, sep)` for a one-character separator, on the
character list of `s`: splits after each occurrence of `sep`, keeping it. -/
def splitAfterChar (sep : Char) : List Char → List (List Char)
  | [] => [[]]
  | c :: rest =>
    if c = sep then [c] :: splitAfterChar sep rest
    else
      match splitAfterChar sep rest with
      | [] => [[c]]
      | h :: t => (c :: h) :: t

/-- Merge helper used by `GetBaseStyle`: look a name up in the base table and
merge it into the accumulator if present (`nval, ok := m[k]; if ok { ... }`). -/
def mergeFound (t : StyleTable) (key : String) (val : Style) : Style :=
  match lookupStyle t key with
  | some nval => val.Merge nval
  | none => val

/-- The suffix-walk loop of `GetBaseStyle` (lines 353–369).  At each
iteration over the `SplitAfter` pieces, `partname` is the concatenation of
the remaining pieces (`name[splitlen:]`), looked up with the `:focus`
variant first when focused. -/
def baseLoop (t : StyleTable) (focused : Bool) : List (List Char) → Style → Style
  | [], val => val
  | _ :: rest, val =>
    let partname : String := String.mk rest.flatten
    let val := if focused then mergeFound t (partname ++ ":focus") val else val
    let val := mergeFound t partname val
    baseLoop t focused rest val

/-- `GetBaseStyle` (lines 340–371) as a function of the base table and the
focus flag.  Note the code's unconditional second `val = val.Merge(nval)`
at line 352 (`nval` is the zero `Style` when the lookup missed). -/
def GetBaseStyleT (t : StyleTable) (focused : Bool) (name : String) : Style :=
  let val : Style := {}
  let val := if focused then mergeFound t (name ++ ":focus") val else val
  let val :=
    match lookupStyle t name with
    | some nval => (val.Merge nval).Merge nval
    | none => val.Merge {}
  baseLoop t focused (splitAfterChar '.' name.toList) val

/-- `CalcedStyle` (lines 373–375). -/
structure CalcedStyle where
  Fg : Nat
  Bg : Nat
deriving DecidableEq

/-- `GetStyle` (lines 377–391) as a function of the base table, the override
stack and the focus flag.  A stack rule applies when its name equals the
class name or the class name is a dot-suffix of it, with `:focus` doubling;
override rules win per field (`s.Value.Merge(val)`). -/
def GetStyleT (t : StyleTable) (stack : List StyleAttr) (focused : Bool)
    (name : String) : CalcedStyle :=
  let val := GetBaseStyleT t focused name
  let val := stack.foldl (fun val s =>
    let val :=
      if s.Name = name ∨ (s.Name.endsWith ("." ++ name)) = true
      then s.Value.Merge val else val
    if focused = true ∧
        (s.Name = name ++ ":focus" ∨
          (s.Name.endsWith ("." ++ name ++ ":focus")) = true)
    then s.Value.Merge val else val) val
  ⟨val.FgColor ||| val.FgStyle, val.BgColor ||| val.BgStyle⟩

/-! ## Input state, hit testing (lines 161–260) -/

/-- `InputState` (lines 161–168). -/
structure InputState where
  mouseX : Int := 0
  mouseY : Int := 0
  mouseButton : Nat := 0
  keyPress : Nat := 0
  chPress : Char := charZero
deriving DecidableEq

/-- `CheckClick` (lines 242–250), as a function of the frame's input
snapshot: the current button if nonzero and the mouse is in the rectangle,
else `MouseNone`. -/
def checkClick (st : InputState) (x y w h : Int) : Nat :=
  if st.mouseButton ≠ 0 then
    if st.mouseX ≥ x ∧ st.mouseX < x + w ∧ st.mouseY ≥ y ∧ st.mouseY < y + h
    then st.mouseButton else 0
  else 0

/-- `GetClick` (lines 252–260): click position relative to the rectangle and
the button, or zeros. -/
def getClick (st : InputState) (x y w h : Int) : Int × Int × Nat :=
  if st.mouseButton ≠ 0 then
    if st.mouseX ≥ x ∧ st.mouseX < x + w ∧ st.mouseY ≥ y ∧ st.mouseY < y + h
    then (st.mouseX - x, st.mouseY - y, st.mouseButton) else (0, 0, 0)
  else (0, 0, 0)

/-! ## Boxes, cells, widget state (lines 291–293, 528–535, 606–608, 858–860) -/

/-- `Box` (lines 291–293). -/
structure Box where
  x : Int
  y : Int
  w : Int
  h : Int
deriving DecidableEq

/-- `Cell` (lines 528–531); the glyph field is irrelevant to state updates. -/
structure Cell where
  ch : Char
  Fg : Nat
  Bg : Nat
deriving DecidableEq

/-- The per-widget payloads stored in `widgetState` (`textState`,
`bufferState`, `inputState`, `listState`, `selectableListState`).  Go stores
them as `interface{}` and widgets type-assert; a wrong payload kind is a
runtime panic. -/
inductive WidgetData where
  | textS (scroll : Int)
  | bufferS (xscroll yscroll : Int)
  | inputS (cPos : Int)
  | listS (scroll : Int)
  | selListS (scroll : Int)
deriving DecidableEq

/-- Lookup in the widget-state map. -/
def lookupWidget : List (String × WidgetData) → String → Option WidgetData
  | [], _ => none
  | (k, v) :: rest, id => if k = id then some v else lookupWidget rest id

/-- Update/insert in the widget-state map. -/
def setWidget : List (String × WidgetData) → String → WidgetData →
    List (String × WidgetData)
  | [], id, v => [(id, v)]
  | (k, w) :: rest, id, v =>
    if k = id then (k, v) :: rest else (k, w) :: setWidget rest id v

/-! ## The engine state (lines 174–209) -/

/-- The `Imterm` struct (lines 174–209), minus the `screen` handle (an
external capability; its `Size()` is frozen into `TermW`/`TermH`). -/
structure Imterm where
  curState : InputState := {}
  nextState : InputState := {}
  mouseState : Nat := 0
  xPos : Int := 0
  yPos : Int := 0
  focusID : String := ""
  lastID : String := ""
  nextID : String := ""
  lastY : Int := 0
  nextX : Int := 0
  nextY : Int := 0
  columnStack : List (Int × Int × Int × Int) := []
  columnWidth : Int := 0
  columnX : Int := 0
  columnY : Int := 0
  columnMaxY : Int := 0
  TermW : Int := 0
  TermH : Int := 0
  baseStyle : StyleTable := []
  styleStack : List StyleAttr := []
  widgetState : List (String × WidgetData) := []
  lastBox : Box := ⟨0, 0, 0, 0⟩
deriving DecidableEq

/-- The base-style defaults installed by `New` (lines 401–414). -/
def defaultBaseStyle : StyleTable :=
  [("border:focus", { FgStyle := AttrBold }),
   ("border.label:focus", { FgStyle := AttrBold }),
   ("active.border", { FgColor := ColorGreen }),
   ("gauge.bar.on", { BgColor := ColorRed })]

/-- `New` (lines 401–414) for a screen of the given size. -/
def Imterm.new (tw th : Int) : Imterm :=
  { baseStyle := defaultBaseStyle, TermW := tw, TermH := th }

/-- `Mouse` (lines 226–233): buffer a mouse event into `nextState`, but only
when the button changed since the last report, except that wheel ticks are
always forwarded. -/
def Imterm.Mouse (it : Imterm) (x y : Int) (button : Nat) : Imterm :=
  if it.mouseState ≠ button ∨ button = MouseWheelUp ∨ button = MouseWheelDown then
    { it with
      nextState :=
        { it.nextState with mouseX := x, mouseY := y, mouseButton := button },
      mouseState := button }
  else it

/-- `Keyboard` (lines 236–239): buffer a key event into `nextState`. -/
def Imterm.Keyboard (it : Imterm) (key : Nat) (ch : Char) : Imterm :=
  { it with nextState := { it.nextState with keyPress := key, chPress := ch } }

/-- `Focus` (lines 263–265). -/
def Imterm.Focus (it : Imterm) : Bool := it.focusID == it.lastID

/-- `setLast` (lines 267–269). -/
def Imterm.setLast (it : Imterm) (id : String) : Imterm := { it with lastID := id }

/-- `SetFocus` (lines 272–274). -/
def Imterm.SetFocus (it : Imterm) (id : String) : Imterm := { it with focusID := id }

/-- `ID` (lines 277–280). -/
def Imterm.ID (it : Imterm) (id : String) : Imterm := { it with nextID := id }

/-- `getID` (lines 282–289): consume the pending override, else the label. -/
def Imterm.getID (it : Imterm) (id : String) : String × Imterm :=
  if it.nextID ≠ "" then (it.nextID, { it with nextID := "" }) else (id, it)

/-- `CheckClick` as a method. -/
def Imterm.CheckClick (it : Imterm) (x y w h : Int) : Nat :=
  checkClick it.curState x y w h

/-- `getBox` (lines 295–314): resolve auto sizes, record `lastBox`, advance
the layout cursor. -/
def Imterm.getBox (it : Imterm) (w h : Int) : Box × Imterm :=
  let w := if w ≤ 0 then ((it.columnX + it.columnWidth) - it.xPos) + w else w
  let h := if h ≤ 0 then (it.TermH - it.yPos) + h else h
  let b : Box := ⟨it.xPos, it.yPos, w, h⟩
  let newY := it.yPos + h
  let newY := if newY < it.nextY then it.nextY else newY
  let newMaxY := if it.columnMaxY < newY then newY else it.columnMaxY
  (b, { it with
        lastBox := b, nextX := it.xPos + w, lastY := it.yPos,
        xPos := it.columnX, yPos := newY, columnMaxY := newMaxY })

/-- `GetBaseStyle` as a method. -/
def Imterm.GetBaseStyle (it : Imterm) (name : String) : Style :=
  GetBaseStyleT it.baseStyle it.Focus name

/-- `GetStyle` as a method. -/
def Imterm.GetStyle (it : Imterm) (name : String) : CalcedStyle :=
  GetStyleT it.baseStyle it.styleStack it.Focus name

/-- `PushStyle` (lines 393–395). -/
def Imterm.PushStyle (it : Imterm) (name : String) (style : Style) : Imterm :=
  { it with styleStack := it.styleStack ++ [⟨name, style⟩] }

/-- `PopStyles` (lines 397–399); `none` when popping more than was pushed
(Go slices out of range). -/
def Imterm.PopStyles (it : Imterm) (num : Nat) : Option Imterm :=
  if num ≤ it.styleStack.length then
    some { it with styleStack := it.styleStack.take (it.styleStack.length - num) }
  else none

/-- `ClearState` (lines 211–215). -/
def Imterm.ClearState (it : Imterm) : Imterm := { it with widgetState := [] }

/-- `Start` (lines 417–429): reset the layout cursor and columns, promote
the buffered input into the frame snapshot, clear the buffer.  The screen
`Clear` call is an external effect; `TermW`/`TermH` are re-read from the
screen, whose size is constant here.  Note that neither the style stack nor
the widget-state store nor the focus bookkeeping is touched. -/
def Imterm.Start (it : Imterm) : Imterm :=
  { it with
    xPos := 0, yPos := 0, nextX := 0, nextY := 0, lastY := 0,
    curState := it.nextState, nextState := {},
    columnX := 0, columnY := 0, columnMaxY := 0,
    columnWidth := it.TermW, columnStack := [] }

/-- `Finish` (lines 993–995) only flips the screen; no engine state changes. -/
def Imterm.Finish (it : Imterm) : Imterm := it

/-! ## The `Input` widget (lines 606–751) -/

/-- Go slice `text[:c]`: `none` exactly when Go panics (c out of `[0, len]`). -/
def goSliceTo (text : List Char) (c : Int) : Option (List Char) :=
  if 0 ≤ c ∧ c ≤ (text.length : Int) then some (text.take c.toNat) else none

/-- Go slice `text[c:]`: `none` exactly when Go panics (c out of `[0, len]`). -/
def goSliceFrom (text : List Char) (c : Int) : Option (List Char) :=
  if 0 ≤ c ∧ c ≤ (text.length : Int) then some (text.drop c.toNat) else none

/-- `text[:c] + string(ch) + text[c:]`, the insertion pattern used for
character, Space and Enter input. -/
def insertAt (text : List Char) (c : Int) (ch : Char) : Option (List Char) :=
  match goSliceTo text c, goSliceFrom text c with
  | some a, some b => some (a ++ ch :: b)
  | _, _ => none

/-- The editing block of `Input` (lines 640–671): consume the frame's
character or key event, producing the new text and cursor.  `none` models a
Go slice-bounds panic. -/
def inputEdit (st : InputState) (text : List Char) (cPos : Int) :
    Option (List Char × Int) :=
  if st.chPress ≠ charZero then
    (insertAt text cPos st.chPress).map (fun t => (t, cPos + 1))
  else if st.keyPress ≠ 0 then
    if st.keyPress = KeyBackspace ∨ st.keyPress = KeyBackspace2 then
      if cPos > 0 then
        match goSliceTo text (cPos - 1), goSliceFrom text cPos with
        | some a, some b => some (a ++ b, cPos - 1)
        | _, _ => none
      else some (text, cPos)
    else if st.keyPress = KeyDelete then
      match goSliceTo text cPos, goSliceFrom text (cPos + 1) with
      | some a, some b => some (a ++ b, cPos)
      | _, _ => none
    else if st.keyPress = KeySpace then
      (insertAt text cPos ' ').map (fun t => (t, cPos + 1))
    else if st.keyPress = KeyEnter then
      (insertAt text cPos '\n').map (fun t => (t, cPos + 1))
    else if st.keyPress = KeyArrowLeft then
      some (text, if cPos > 0 then cPos - 1 else cPos)
    else if st.keyPress = KeyArrowRight then
      some (text, if cPos < (text.length : Int) then cPos + 1 else cPos)
    else some (text, cPos)
  else some (text, cPos)

/-- `strings.IndexAny(l, "\n\t ")`: index of the first whitespace, `-1` when
there is none. -/
def indexAnyWs : List Char → Int
  | [] => -1
  | c :: rest =>
    if c = '\n' ∨ c = '\t' ∨ c = ' ' then 0
    else if indexAnyWs rest = -1 then -1 else indexAnyWs rest + 1

/-- The mutable locals of the rendering loop of `Input` (lines 684–749) that
survive an iteration: wrap position, pending word-break index, click-to-
position coordinates, cursor index, cursor-drawn flag. -/
structure RenderAcc where
  cx : Int
  cy : Int
  nextspace : Int
  mx : Int
  my : Int
  cPos : Int
  cursor : Bool
deriving DecidableEq

/-- The rendering loop of `Input` (lines 691–742), with the `SetCell` screen
writes dropped; every state-relevant mutation (the click-to-cursor
resolution via `mx`/`my`, the greedy word-wrap bookkeeping, and early exit
when the interior height is exhausted) is kept.  `total` is `len(text)` and
`i` the index of the head of the remaining list. -/
def inputRender (showcursor : Bool) (w h : Int) (total : Nat) :
    List Char → Nat → RenderAcc → RenderAcc
  | [], _, acc => acc
  | r :: rest, i, acc =>
    let acc := if acc.mx ≥ 0 ∧ acc.cx = acc.mx ∧ acc.cy = acc.my
      then { acc with cPos := (i : Int), mx := -1 } else acc
    if r = '\n' then
      let acc := if (i : Int) = acc.cPos ∧ showcursor = true
        then { acc with cursor := true } else acc
      let acc := { acc with cx := 0, cy := acc.cy + 1 }
      let acc := if acc.mx ≥ 0 ∧ acc.cy > acc.my
        then { acc with cPos := (i : Int), mx := -1 } else acc
      if acc.cy ≥ h - 2 then acc
      else inputRender showcursor w h total rest (i + 1) acc
    else
      let wrapRes : RenderAcc × Bool :=
        if (i : Int) ≥ acc.nextspace then
          let ns0 := indexAnyWs (r :: rest)
          let ns1 := if ns0 = -1 then ((total - i : Nat) : Int) else ns0
          if ns1 > (w - 2) - acc.cx then
            let acc := { acc with cx := 0, cy := acc.cy + 1 }
            let acc := if acc.mx ≥ 0 ∧ acc.cy > acc.my
              then { acc with cPos := (i : Int), mx := -1 } else acc
            if acc.cy ≥ h - 2 then (acc, true)
            else ({ acc with nextspace := ns1 + (i : Int) }, false)
          else ({ acc with nextspace := ns1 + (i : Int) }, false)
        else (acc, false)
      if wrapRes.2 then wrapRes.1
      else
        let acc := wrapRes.1
        let colRes : RenderAcc × Bool :=
          if acc.cx ≥ w - 2 then
            let acc := { acc with cx := 0, cy := acc.cy + 1 }
            if acc.cy ≥ h - 2 then (acc, true) else (acc, false)
          else (acc, false)
        if colRes.2 then colRes.1
        else
          let acc := colRes.1
          let acc := if (i : Int) = acc.cPos ∧ showcursor = true
            then { acc with cursor := true } else acc
          let acc := { acc with cx := acc.cx + 1 }
          inputRender showcursor w h total rest (i + 1) acc

/-- `true` when the stored payload can be type-asserted to `*inputState`
(or is absent, in which case the default is lazily inserted). -/
def isInputCompat : Option WidgetData → Bool
  | some (WidgetData.inputS _) => true
  | none => true
  | some _ => false

/-- The body of `Input` after identity resolution and box placement
(lines 617–750): state lookup, click handling and click-to-focus, the edit
block, the cursor clamps, the rendering pass, and the write-back of the
cursor into the state store.  The `frame` call and `GetStyle` lookups are
pure rendering and are dropped.  `none` models a Go panic (state payload of
the wrong kind, or a slice-bounds violation in the edit block). -/
def Imterm.inputCore (it : Imterm) (id : String) (b : Box) (text : List Char) :
    Option (List Char × Imterm) :=
  let cPosOpt : Option Int :=
    match lookupWidget it.widgetState id with
    | some (WidgetData.inputS c) => some c
    | some _ => none
    | none => some (-1)
  match cPosOpt with
  | none => none
  | some cPos0 =>
    let cPos1 := if cPos0 = -1 then (text.length : Int) else cPos0
    let mxmy : Int × Int :=
      if checkClick it.curState b.x b.y b.w b.h = MouseLeft then
        let mx := it.curState.mouseX - (b.x + 1)
        let my := it.curState.mouseY - (b.y + 1)
        let mx := if mx < 0 then 0 else if mx > b.w - 2 then b.w - 2 else mx
        let my := if my < 0 then 0 else if my > b.h - 2 then b.h - 2 else my
        (mx, my)
      else (-1, -1)
    let it := if checkClick it.curState b.x b.y b.w b.h = MouseLeft
      then { it with focusID := id } else it
    let focused := it.Focus
    match (if focused then inputEdit it.curState text cPos1
           else some (text, cPos1)) with
    | none => none
    | some tp =>
      let text := tp.1
      let cPos2 := tp.2
      let cPos3 := if cPos2 < 0 then 0 else cPos2
      let cPos4 := if cPos3 > (text.length : Int) then (text.length : Int)
        else cPos3
      let acc0 : RenderAcc :=
        { cx := 0, cy := 0, nextspace := 0, mx := mxmy.1, my := mxmy.2,
          cPos := cPos4, cursor := false }
      let acc := inputRender focused b.w b.h text.length text 0 acc0
      let acc := if acc.mx ≥ 0 then { acc with cPos := (text.length : Int) }
        else acc
      let it := { it with
        widgetState := setWidget it.widgetState id (WidgetData.inputS acc.cPos) }
      some (text, it)

/-- `Input` (lines 611–751): resolve identity, record it as last, place the
box, then run the widget body. -/
def Imterm.Input (it : Imterm) (w h : Int) (label : String) (text : List Char) :
    Option (List Char × Imterm) :=
  let p := it.getID label
  let it := p.2.setLast p.1
  let q := it.getBox w h
  q.2.inputCore p.1 q.1 text

/-- The widget's box as `Input` computes it, for stating hypotheses about
the click hit-test. -/
def Imterm.inputBoxOf (it : Imterm) (w h : Int) (label : String) : Box :=
  (((it.getID label).2.setLast (it.getID label).1).getBox w h).1

/-! ## The `Toggle` widget (lines 788–828) -/

/-- `Toggle` (lines 788–828): a primary-button hit claims focus and flips
the caller-threaded boolean; the class switch (`toggle` vs `toggle.active`)
and the label rendering only produce screen writes and are dropped. -/
def Imterm.Toggle (it : Imterm) (w h : Int) (label : String) (state : Bool) :
    Bool × Imterm :=
  let p := it.getID label
  let it := p.2.setLast p.1
  let q := it.getBox w h
  let b := q.1
  let it := q.2
  let clicked := checkClick it.curState b.x b.y b.w b.h = MouseLeft
  let it := if clicked then { it with focusID := p.1 } else it
  let state := if clicked then !state else state
  (state, it)

/-! ## The `Gauge` widget (lines 831–856) -/

/-- The column loop of `Gauge` (lines 841–855): starting from the
"gauge.bar.on" style, the style variable switches to the "gauge.bar.off"
style at the first column `cx` with `float32(cx)/float32(w-1) >= percent`
and is carried forward; every interior cell of column `cx` is written with
the style current at that iteration.  The result lists the style used for
columns `0, 1, ...` left to right. -/
def gaugeStylesFrom (offS : CalcedStyle) (w : Int) (percent : ℚ) :
    Nat → Int → CalcedStyle → List CalcedStyle
  | 0, _, _ => []
  | n + 1, cx, s =>
    let s := if percent ≤ (cx : ℚ) / ((w : ℚ) - 1) then offS else s
    s :: gaugeStylesFrom offS w percent n (cx + 1) s

/-- `Gauge` (lines 831–856).  The border frame and the overlay text affect
only glyphs, not state or column styles; the returned list is the style
each of the `w-2` interior columns is drawn with. -/
def Imterm.Gauge (it : Imterm) (w h : Int) (label : String) (percent : ℚ)
    (overlay : List Char) : List CalcedStyle × Imterm :=
  let p := it.getID label
  let it := p.2.setLast p.1
  let q := it.getBox w h
  let b := q.1
  let it := q.2
  let onS := it.GetStyle "gauge.bar.on"
  let offS := it.GetStyle "gauge.bar.off"
  (gaugeStylesFrom offS b.w percent (b.w - 2).toNat 0 onS, it)

/-! ## The `List` widget (lines 858–903) -/

/-- The scroll update of `List` (lines 877–888): clicking the up-arrow cell
decrements when scroll is positive; clicking the down-arrow cell increments
while `scroll < len(contents) - (h-2)`. -/
def listScrollStep (st : InputState) (x y w h N s0 : Int) : Int :=
  let s := s0
  let s := if s > 0 ∧ checkClick st (x + w - 1) (y + 1) 1 1 = MouseLeft
    then s - 1 else s
  if s < N - (h - 2) ∧ checkClick st (x + w - 1) (y + h - 2) 1 1 = MouseLeft
  then s + 1 else s

/-- `List` (lines 863–903).  Identity is resolved and recorded, the box is
placed, but the state entry is looked up and stored under the raw `label`
(lines 873) — not under the resolved id.  The row-rendering loop only
produces screen writes and is dropped.  `none` models the type-assertion
panic on a payload of the wrong kind. -/
def Imterm.ListWidget (it : Imterm) (w h : Int) (label : String)
    (contents : List String) : Option Imterm :=
  let p := it.getID label
  let it := p.2.setLast p.1
  let q := it.getBox w h
  let b := q.1
  let it := q.2
  let s0Opt : Option Int :=
    match lookupWidget it.widgetState label with
    | some (WidgetData.listS s) => some s
    | some _ => none
    | none => some 0
  match s0Opt with
  | none => none
  | some s0 =>
    let s := listScrollStep it.curState b.x b.y b.w b.h (contents.length : Int) s0
    some { it with
           widgetState := setWidget it.widgetState label (WidgetData.listS s) }

/-! ## The `Buffer` widget (lines 538–604) -/

/-- The vertical-scroll update of `Buffer` (lines 548–570): up-arrow click
or wheel-up decrements while positive; down-arrow click or wheel-down
increments while `yscroll + h - 2 < len(buffer)`; otherwise, when
`yscroll + h - 2 > len(buffer)`, the offset is clamped to
`len(buffer) - h - 2`, floored at `0`. -/
def bufferYStep (st : InputState) (x y w h N ys0 : Int) : Int :=
  let ys :=
    if ys0 > 0 then
      let ys := if checkClick st (x + w - 1) (y + 1) 1 1 = MouseLeft
        then ys0 - 1 else ys0
      if checkClick st x y w h = MouseWheelUp then ys - 1 else ys
    else ys0
  if ys + h - 2 < N then
    let ys2 := if checkClick st (x + w - 1) (y + h - 2) 1 1 = MouseLeft
      then ys + 1 else ys
    if checkClick st x y w h = MouseWheelDown then ys2 + 1 else ys2
  else if ys + h - 2 > N then
    let ys2 := N - h - 2
    if ys2 < 0 then 0 else ys2
  else ys

/-- The body of `Buffer` after identity resolution and box placement
(lines 547–603): vertical then horizontal scroll updates, the write-back,
and the returned relative click.  `buffer[0]` (line 579) panics on an empty
buffer, modelled by `none`; the cell-grid rendering is dropped. -/
def Imterm.bufferBody (it : Imterm) (id : String) (b : Box)
    (buffer : List (List Cell)) (xs0 ys0 : Int) :
    Option ((Int × Int × Nat) × Imterm) :=
  let ys := bufferYStep it.curState b.x b.y b.w b.h (buffer.length : Int) ys0
  let xs := if xs0 > 0 ∧ checkClick it.curState (b.x + 1) (b.y + b.h - 1) 1 1 = MouseLeft
    then xs0 - 1 else xs0
  match buffer.head? with
  | none => none
  | some row0 =>
    let M : Int := row0.length
    let xs :=
      if xs + b.w - 2 < M then
        if checkClick it.curState (b.x + b.w - 2) (b.y + b.h - 1) 1 1 = MouseLeft
        then xs + 1 else xs
      else if xs + b.w - 2 > M then
        let xs2 := M - b.w - 2
        if xs2 < 0 then 0 else xs2
      else xs
    let it := { it with
      widgetState := setWidget it.widgetState id (WidgetData.bufferS xs ys) }
    some (getClick it.curState (b.x + 1) (b.y + 1) (b.w - 2) (b.h - 2), it)

/-- `Buffer` (lines 538–604); the state entry is keyed by the resolved id
(line 547). -/
def Imterm.Buffer (it : Imterm) (w h : Int) (label : String)
    (buffer : List (List Cell)) : Option ((Int × Int × Nat) × Imterm) :=
  let p := it.getID label
  let it := p.2.setLast p.1
  let q := it.getBox w h
  match lookupWidget q.2.widgetState p.1 with
  | some (WidgetData.bufferS xs ys) => q.2.bufferBody p.1 q.1 buffer xs ys
  | none => q.2.bufferBody p.1 q.1 buffer 0 0
  | some _ => none

/-! ## Concrete scenarios used by the verification below -/

/-- Base table with rules named "a" and "a.b" (cascade-specificity check). -/
def c1Table : StyleTable := [("a", { FgColor := 1 }), ("a.b", { BgColor := 2 })]

/-- Engine with focus already on the id "box" (the Input end-to-end run). -/
def c2It0 : Imterm := { Imterm.new 80 24 with focusID := "box" }

/-- One frame of the Input scenario: buffer a key event, start the frame,
run the 10×3 input box, and thread the text through. -/
def c2Frame (key : Nat) (ch : Char) (text : List Char) (it : Imterm) :
    Option (List Char × Imterm) :=
  ((it.Keyboard key ch).Start).Input 10 3 "box" text

/-- Typing 'h', 'i', Enter, 'x' into the focused 10×3 input box, one frame
each, starting from empty text. -/
def c2Run : Option (List Char × Imterm) :=
  (((c2Frame 0 'h' [] c2It0).bind fun p => c2Frame 0 'i' p.1 p.2).bind
    fun p => c2Frame KeyEnter charZero p.1 p.2).bind
    fun p => c2Frame 0 'x' p.1 p.2

/-- Engine focused on "in" with a pending Delete key in the frame snapshot. -/
def c3It : Imterm :=
  { Imterm.new 80 24 with focusID := "in", curState := { keyPress := KeyDelete } }

/-- Toggle scenario, frame 1: a left click at (1,1) inside the 3×3 box. -/
def c4Frame1 : Bool × Imterm :=
  (((Imterm.new 80 24).Mouse 1 1 MouseLeft).Start).Toggle 3 3 "t" false

/-- Toggle scenario, frame 2 setup: release then a second left click. -/
def c4It2 : Imterm :=
  ((c4Frame1.2.Mouse 1 1 MouseRelease).Mouse 1 1 MouseLeft).Start

/-- Toggle scenario, frame 2: the second click, threading the state back. -/
def c4Frame2 : Bool × Imterm := c4It2.Toggle 3 3 "t" c4Frame1.1

/-- A Gauge of box width 12 (interior width 10) at `percent = 1/2`. -/
def c5Run : List CalcedStyle × Imterm :=
  (Imterm.new 80 24).Gauge 12 3 "g" (1/2 : ℚ) []

/-- Five content rows for the List scroll scenario. -/
def c6Contents5 : List String := ["r0", "r1", "r2", "r3", "r4"]

/-- List scroll scenario, frame 1: left click on the down-arrow cell (4,2)
of a 5×4 list with five rows. -/
def c6It1 : Option Imterm :=
  ((((Imterm.new 80 24).Mouse 4 2 MouseLeft).Start).ListWidget 5 4 "L" c6Contents5)

/-- Frame 2: release, second down-arrow click, same contents. -/
def c6It2 : Option Imterm :=
  c6It1.bind fun it =>
    (((it.Mouse 4 2 MouseRelease).Mouse 4 2 MouseLeft).Start).ListWidget 5 4 "L" c6Contents5

/-- Frame 3: no input, but the contents have shrunk to a single row. -/
def c6It3 : Option Imterm :=
  c6It2.bind fun it => (it.Start).ListWidget 5 4 "L" ["r0"]

/-- An arbitrary concrete input snapshot (no event) for witnesses. -/
def istW : InputState := {}

/-- A frame that pushes an override rule "zz" and is then ended: the next
frame starts without the rule having been popped. -/
def c8It : Imterm := (((Imterm.new 80 24).PushStyle "zz" { FgColor := 5 }).Finish).Start

/-- A List call with label "L" and a pending identity override "X". -/
def c9Run : Option Imterm :=
  (((Imterm.new 80 24).ID "X").Start).ListWidget 5 4 "L" ["a", "b", "c"]

/-- Unfocused engine (focus on "zz") with an empty input snapshot, for the
Input frame-condition witness. -/
def c10It : Imterm := { Imterm.new 80 24 with focusID := "zz" }

/-! ## Helper lemmas -/

theorem Style.zero_merge (s : Style) : ({} : Style).Merge s = s := rfl

theorem Style.merge_self (s : Style) : s.Merge s = s := by
  cases s
  simp [Style.Merge]

/-- A nonzero `checkClick` result is the snapshot's button. -/
theorem checkClick_eq_button {st : InputState} {x y w h : Int} {k : Nat}
    (hne : k ≠ 0) (hc : checkClick st x y w h = k) : st.mouseButton = k := by
  unfold checkClick at hc
  split at hc
  · split at hc
    · exact hc
    · exact absurd hc.symm hne
  · exact absurd hc.symm hne

/-- Two nonzero `checkClick` results from the same snapshot agree: one
frame's input holds a single button. -/
theorem checkClick_conflict {st : InputState} {a b c d e f g i : Int}
    {k1 k2 : Nat} (h1 : checkClick st a b c d = k1) (h2 : checkClick st e f g i = k2)
    (hk1 : k1 ≠ 0) (hk2 : k2 ≠ 0) : k1 = k2 := by
  have e1 := checkClick_eq_button hk1 h1
  have e2 := checkClick_eq_button hk2 h2
  rw [← e1, e2]

/-! ## C1: cascade specificity -/

/-- C1, counterexample: with base rules `"a" ↦ {FgColor := 1}` and
`"a.b" ↦ {BgColor := 2}`, the claim demands that resolving `"a.b"` yield
the per-field merge of rule `"a.b"` over rule `"a"`, i.e.
`{FgColor := 1, BgColor := 2}`.  The resolver walks dot-suffixes
(`"a.b"`, `"b"`, `""`), never the leading-prefix rule `"a"`, and returns
`{BgColor := 2}` with `FgColor = 0`. -/
theorem c1_cascade_counterexample :
    GetBaseStyleT c1Table false "a.b" ≠
      Style.Merge { BgColor := 2 } { FgColor := 1 } := by decide

/-- C1, amended: the ancestor rules consulted by the cascade are the
dot-suffixes of the class name, not its prefixes.  For every pair of base
rules named `"a.b"` and `"b"`, resolving `"a.b"` takes each field from rule
`"a.b"` where it is set and falls back to rule `"b"`'s value for every
field `"a.b"` leaves unset. -/
theorem c1_cascade_amended (sab sb : Style) :
    GetBaseStyleT [("a.b", sab), ("b", sb)] false "a.b" = sab.Merge sb := by
  show ((({} : Style).Merge sab).Merge sab).Merge sb = sab.Merge sb
  rw [Style.zero_merge, Style.merge_self]

/-! ## C2: Input end-to-end scenario -/

/-- C2: a focused 10×3 Input box starting from empty text receives 'h', 'i',
Enter, 'x' over four frames (each event buffered via `Keyboard`, promoted by
`Start`, the returned text threaded back in).  The final text is `"hi\nx"`
and the persisted cursor index is 4. -/
theorem c2_input_scenario :
    c2Run.map Prod.fst = some "hi\nx".toList ∧
      c2Run.map (fun p => lookupWidget p.2.widgetState "box") =
        some (some (WidgetData.inputS 4)) := by
  constructor <;> rfl

/-! ## C3: Delete at end-of-text -/

/-- C3, failing input: a focused fresh Input holding `"ab"` (cursor
initialised to end-of-text, index 2) that receives a Delete key evaluates
the slice `text[cPos+1:]` = `"ab"[3:]`, which is out of range: the error
branch of the slicing arithmetic IS reachable with the cursor in
`[0, len(text)]`, and Go panics instead of treating Delete at end-of-text
as a no-op. -/
theorem c3_delete_out_of_range :
    c3It.Input 10 3 "in" "ab".toList = none := by rfl

/-! ## C4: Toggle flips on each qualifying click -/

/-- C4: a Toggle clicked with the primary button inside its box returns
`true` from `false`; a second click in a later frame (after the release
edge) returns it to `false`. -/
theorem c4_toggle_scenario : c4Frame1.1 = true ∧ c4Frame2.1 = false := by
  constructor <;> rfl

/-! ## C5: Gauge fill proportions -/

/-- C5, counterexample: for the Gauge at `percent = 1/2` over an interior
width of 10 (box width 12), the resolved "gauge.bar.on" style is
`⟨0, 2⟩` (red background from the default table) and the resolved
"gauge.bar.off" style is `⟨0, 0⟩`, but the number of interior columns drawn
with the on style is 6, not the claimed 5: the fill threshold compares
`cx / (w-1)` = `cx / 11` with the percentage, not `cx` over the interior
width 10 (columns 0–5 satisfy `cx/11 < 1/2`). -/
theorem c5_gauge_counterexample :
    c5Run.2.GetStyle "gauge.bar.on" = ⟨0, 2⟩ ∧
      c5Run.2.GetStyle "gauge.bar.off" = ⟨0, 0⟩ ∧
      c5Run.1.count (⟨0, 2⟩ : CalcedStyle) ≠ 5 := by
  refine ⟨rfl, rfl, ?_⟩
  show (gaugeStylesFrom ⟨0, 0⟩ 12 (1/2 : ℚ) 10 0 ⟨0, 2⟩).count ⟨0, 2⟩ ≠ 5
  norm_num [gaugeStylesFrom]

/-- C5, amended: the Gauge at `percent = 1/2` over an interior width of 10
draws exactly 6 interior columns with the "gauge.bar.on" style followed by
exactly 4 with the "gauge.bar.off" style — the on-columns are those with
`cx / (w-1) = cx / 11 < 1/2`, and they form the left-to-right prefix. -/
theorem c5_gauge_amended :
    c5Run.1 =
      List.replicate 6 (⟨0, 2⟩ : CalcedStyle) ++
        List.replicate 4 (⟨0, 0⟩ : CalcedStyle) := by
  show gaugeStylesFrom ⟨0, 0⟩ 12 (1/2 : ℚ) 10 0 ⟨0, 2⟩ = _
  norm_num [gaugeStylesFrom, List.replicate]

/-! ## C6: scroll clamping -/

/-- Helper for C6: the Buffer vertical-scroll update always lands in
`[0, max 0 (N - (h-2))]` from any non-negative offset; the clamp branch
catches any stale offset, and the up/down moves cannot double-fire because
one snapshot holds a single button. -/
theorem bufferY_inv (st : InputState) (x y w h N ys : Int) (hys : 0 ≤ ys) :
    0 ≤ bufferYStep st x y w h N ys ∧
      bufferYStep st x y w h N ys ≤ max 0 (N - (h - 2)) := by
  simp only [bufferYStep]
  split_ifs <;> try omega
  all_goals
    first
    | (exfalso
       have e1 := checkClick_eq_button (k := MouseLeft) (by decide) (by assumption)
       have e2 := checkClick_eq_button (k := MouseWheelUp) (by decide) (by assumption)
       rw [e1] at e2
       exact absurd e2 (by decide))
    | (exfalso
       have e1 := checkClick_eq_button (k := MouseLeft) (by decide) (by assumption)
       have e2 := checkClick_eq_button (k := MouseWheelDown) (by decide) (by assumption)
       rw [e1] at e2
       exact absurd e2 (by decide))

/-- Helper for C6: the List scroll update preserves
`[0, max 0 (N - (h-2))]` for the `N` and `h` of the call, but performs no
downward clamp of its own. -/
theorem listScroll_inv (st : InputState) (x y w h N s : Int) (hs0 : 0 ≤ s)
    (hs1 : s ≤ max 0 (N - (h - 2))) :
    0 ≤ listScrollStep st x y w h N s ∧
      listScrollStep st x y w h N s ≤ max 0 (N - (h - 2)) := by
  simp only [listScrollStep]
  split_ifs <;> omega

/-- C6, counterexample: the invariant fails for `List` when the contents
shrink.  Two down-arrow clicks on a 5×4 List over five rows drive the
persisted scroll to 2 (within bounds, `max 0 (5-2) = 3`); a third frame
over a single row leaves the stored offset at 2 although the claimed range
is `[0, max 0 (1-2)] = [0, 0]` — `List` never clamps downward. -/
theorem c6_scroll_counterexample :
    c6It3.map (fun it => lookupWidget it.widgetState "L") =
        some (some (WidgetData.listS 2)) ∧
      ¬ ((2 : Int) ≤ max 0 ((1 : Int) - (4 - 2))) := by
  exact ⟨rfl, by decide⟩

/-- C6, amended: the end-of-call bound `[0, max 0 (N - H)]` (with `H = h-2`
visible rows) holds unconditionally for `Buffer`'s vertical offset, which
clamps stale values; for `List` it is only preserved relative to the
current call's `N` and `h` — when the content count shrinks between frames
the persisted offset can exceed the new bound, as the counterexample
shows. -/
theorem c6_scroll_amended :
    (∀ (st : InputState) (x y w h N ys : Int), 0 ≤ ys →
        0 ≤ bufferYStep st x y w h N ys ∧
          bufferYStep st x y w h N ys ≤ max 0 (N - (h - 2))) ∧
      (∀ (st : InputState) (x y w h N s : Int), 0 ≤ s →
          s ≤ max 0 (N - (h - 2)) →
          0 ≤ listScrollStep st x y w h N s ∧
            listScrollStep st x y w h N s ≤ max 0 (N - (h - 2))) :=
  ⟨bufferY_inv, listScroll_inv⟩

/-- Witness for `c6_scroll_amended` at a concrete snapshot and geometry. -/
theorem c6_scroll_amended_witness :
    (0 ≤ bufferYStep istW 0 0 5 4 3 1 ∧
        bufferYStep istW 0 0 5 4 3 1 ≤ max 0 ((3 : Int) - (4 - 2))) ∧
      (0 ≤ listScrollStep istW 0 0 5 4 3 1 ∧
        listScrollStep istW 0 0 5 4 3 1 ≤ max 0 ((3 : Int) - (4 - 2))) :=
  ⟨c6_scroll_amended.1 istW 0 0 5 4 3 1 (by decide),
   c6_scroll_amended.2 istW 0 0 5 4 3 1 (by decide) (by decide)⟩

/-! ## C7: input snapshot isolation -/

/-- C7: `Mouse` and `Keyboard` write only the `nextState` buffer (and the
edge-filter bookkeeping), never the frame snapshot `curState` that every
widget hit-test and key read observes; the buffered input becomes the
snapshot only at the next `Start`. -/
theorem c7_input_snapshot (it : Imterm) (x y : Int) (b k : Nat) (c : Char) :
    (it.Mouse x y b).curState = it.curState ∧
      (it.Keyboard k c).curState = it.curState ∧
      (it.Start).curState = it.nextState := by
  refine ⟨?_, rfl, rfl⟩
  unfold Imterm.Mouse
  split <;> rfl

/-! ## C8: per-frame scope of style overrides -/

/-- C8, counterexample: a rule `"zz" ↦ {FgColor := 5}` pushed in one frame
and never popped still affects `GetStyle` after `Finish` and the next
`Start`: the resolution yields `Fg = 5`, while a base-table-only resolution
of `"zz"` in the same engine state yields `Fg = 0`.  `Start` never clears
the style stack. -/
theorem c8_style_counterexample :
    c8It.GetStyle "zz" = ⟨5, 0⟩ ∧
      GetStyleT c8It.baseStyle [] c8It.Focus "zz" = ⟨0, 0⟩ ∧
      (⟨5, 0⟩ : CalcedStyle) ≠ ⟨0, 0⟩ := by
  exact ⟨rfl, rfl, by decide⟩

/-- C8, amended: style overrides are scoped by explicit push/pop only, not
by the frame: `Start` leaves the override stack (and every input to
`GetStyle`) unchanged, so an unpopped rule keeps affecting resolution in
all later frames until popped. -/
theorem c8_style_amended (it : Imterm) (name : String) :
    (it.Start).styleStack = it.styleStack ∧
      (it.Start).GetStyle name = it.GetStyle name :=
  ⟨rfl, rfl⟩

/-! ## C9: widget identity and the state store -/

/-- C9, failing input: a `List` call with label `"L"` under a pending
identity override `"X"`.  The override is consumed and becomes the resolved
identity (recorded as `lastID`), but the scroll state is created under the
raw label `"L"` (line 873 passes `label`, not `id`, to `getState`), so an
`ID()` override does not redirect the state entry for `List` (nor for
`SelectableList`, line 924). -/
theorem c9_list_identity_bug :
    c9Run.map (fun it =>
        (lookupWidget it.widgetState "X", lookupWidget it.widgetState "L",
          it.lastID)) =
      some (none, some (WidgetData.listS 0), "X") := by rfl

/-! ## C10: implicit frame condition of `Input` -/

theorem getID_snd_focusID (it : Imterm) (l : String) :
    (it.getID l).2.focusID = it.focusID := by
  unfold Imterm.getID; split <;> rfl

theorem getID_snd_curState (it : Imterm) (l : String) :
    (it.getID l).2.curState = it.curState := by
  unfold Imterm.getID; split <;> rfl

theorem getID_snd_widgetState (it : Imterm) (l : String) :
    (it.getID l).2.widgetState = it.widgetState := by
  unfold Imterm.getID; split <;> rfl

/-- Helper for C10: the `Input` body with the resolved identity out of
focus and no primary-button hit never edits: no click-to-focus, the edit
block is skipped, and the call returns the text argument unchanged. -/
theorem inputCore_unfocused (it : Imterm) (id : String) (b : Box)
    (text : List Char)
    (hlast : it.lastID = id) (hfoc : it.focusID ≠ id)
    (hclick : checkClick it.curState b.x b.y b.w b.h ≠ MouseLeft)
    (hstate : isInputCompat (lookupWidget it.widgetState id) = true) :
    ∃ it2, it.inputCore id b text = some (text, it2) := by
  have hfb : it.Focus = false := by
    unfold Imterm.Focus
    rw [hlast]
    exact beq_eq_false_iff_ne.mpr hfoc
  unfold Imterm.inputCore
  cases hlk : lookupWidget it.widgetState id with
  | none =>
    simp only [hlk, if_neg hclick, hfb, Bool.false_eq_true, if_false]
    exact ⟨_, rfl⟩
  | some wd =>
    cases wd with
    | inputS c =>
      simp only [hlk, if_neg hclick, hfb, Bool.false_eq_true, if_false]
      exact ⟨_, rfl⟩
    | textS s => rw [hlk] at hstate; simp [isInputCompat] at hstate
    | bufferS a u => rw [hlk] at hstate; simp [isInputCompat] at hstate
    | listS s => rw [hlk] at hstate; simp [isInputCompat] at hstate
    | selListS s => rw [hlk] at hstate; simp [isInputCompat] at hstate

/-- C10: for every `Input` call whose resolved identity is not the current
focus id and whose frame snapshot is not a primary-button click inside the
widget's box, the call returns (and the caller gets back) the text argument
exactly — no character, key or click editing is applied to unfocused
widgets.  (The state-payload hypothesis rules out the unrelated
type-assertion panic of `getState`.) -/
theorem c10_unfocused_input (it : Imterm) (w h : Int) (label : String)
    (text : List Char)
    (hid : it.focusID ≠ (it.getID label).1)
    (hclick : checkClick it.curState (it.inputBoxOf w h label).x
        (it.inputBoxOf w h label).y (it.inputBoxOf w h label).w
        (it.inputBoxOf w h label).h ≠ MouseLeft)
    (hstate : isInputCompat
        (lookupWidget it.widgetState (it.getID label).1) = true) :
    ∃ it2, it.Input w h label text = some (text, it2) := by
  unfold Imterm.Input
  apply inputCore_unfocused
  · rfl
  · show (((it.getID label).2.setLast (it.getID label).1).getBox w h).2.focusID ≠ _
    have e : (((it.getID label).2.setLast (it.getID label).1).getBox w h).2.focusID
        = it.focusID := by
      show ((it.getID label).2).focusID = it.focusID
      exact getID_snd_focusID it label
    rw [e]; exact hid
  · have e : (((it.getID label).2.setLast (it.getID label).1).getBox w h).2.curState
        = it.curState := by
      show ((it.getID label).2).curState = it.curState
      exact getID_snd_curState it label
    rw [e]; exact hclick
  · have e : (((it.getID label).2.setLast (it.getID label).1).getBox w h).2.widgetState
        = it.widgetState := by
      show ((it.getID label).2).widgetState = it.widgetState
      exact getID_snd_widgetState it label
    rw [e]; exact hstate

/-- Witness for `c10_unfocused_input`: an engine focused elsewhere with an
empty input snapshot returns `"ab"` unchanged from a 5×5 input box. -/
theorem c10_unfocused_input_witness :
    ∃ it2, c10It.Input 5 5 "in" "ab".toList = some ("ab".toList, it2) :=
  c10_unfocused_input c10It 5 5 "in" "ab".toList (by decide) (by decide)
    (by decide)
